import Mathlib

/-!
Verification development for the hepic-app-server authentication subsystem.

The definitions below are a shallow embedding of the Go source:
  * `services/auth_service.go` — `Register`, `Login`, `GenerateJWT`,
    `ValidateJWT`, `UpdateUser`;
  * `database/database.go` — the ClickHouse-backed user store
    (`InsertUser`, `GetUserByID`, `GetUserByUsername`, `GetUsers`,
    `UpdateUser`, `UpdateUserLastLogin`);
  * the auth HTTP handler (`GetUsers` query-parameter handling) and the
    JWT middleware (`JWTWithConfig`).

Timestamps are modelled as integers (Unix seconds; `UnixNano` values where
the source uses them).  The user directory is modelled as a list of rows.
-/

deriving instance DecidableEq for Except

namespace Hepic

/-- Models a bcrypt hash as stored in the `password` column.
`bcrypt.GenerateFromPassword` embeds a random salt and the password
(one-way in reality); `bcrypt.CompareHashAndPassword` succeeds exactly when
the plaintext matches the hashed password.  The Go code uses the empty
string `""` as the cleared-password sentinel, modelled by `.empty`. -/
inductive StoredPassword where
  | hashed (salt : String) (pw : String)
  | empty
  deriving DecidableEq, Repr

/-- Models `bcrypt.CompareHashAndPassword(hash, pw) == nil`. -/
def bcryptVerify (pw : String) : StoredPassword → Bool
  | .hashed _ w => pw == w
  | .empty => false

/-- Models `models.User` (the row shape of the ClickHouse `users` table:
`id UInt64, username, email, password, role String, is_active UInt8,
created_at, updated_at DateTime, last_login Nullable(DateTime)`). -/
structure User where
  id : Int
  username : String
  email : String
  password : StoredPassword
  role : String
  isActive : Bool
  createdAt : Int
  updatedAt : Int
  lastLogin : Option Int
  deriving DecidableEq, Repr

/-- Models `models.UserCreateRequest`. -/
structure UserCreateRequest where
  username : String
  email : String
  password : String
  role : String
  deriving DecidableEq, Repr

/-- Models `models.UserUpdateRequest` (the `omitempty` fields; `IsActive`
is a nullable pointer in Go, hence `Option Bool`). -/
structure UserUpdateRequest where
  username : String
  email : String
  role : String
  isActive : Option Bool
  deriving DecidableEq, Repr

/-- Models `models.UserListResponse`. -/
structure UserListResponse where
  users : List User
  total : Int
  page : Int
  perPage : Int
  totalPages : Int
  deriving DecidableEq, Repr

/-! ### IEEE-754 float64 decoding of JSON integers

`ValidateJWT` reads numeric claims with `claims["user_id"].(float64)`:
the jwt library decodes the JSON payload into `jwt.MapClaims`
(`map[string]interface{}`), where `encoding/json` represents every number
as a `float64`.  An integer survives this decode exactly when it is
representable in a 53-bit significand; otherwise it is rounded to the
nearest representable value (ties to even), which is what
`f64roundNat`/`f64roundInt` compute for integers in the `int64` range. -/

/-- Fuel-driven base-2 logarithm (enough fuel for any `int64` value);
structural so that proofs can evaluate it. -/
def log2Fuel : Nat → Nat → Nat
  | 0, _ => 0
  | fuel + 1, n => if 2 ≤ n then log2Fuel fuel (n / 2) + 1 else 0

/-- Base-2 logarithm for values in the `int64` range. -/
def natLog2 (n : Nat) : Nat := log2Fuel 64 n

/-- Round a natural number to the nearest float64-representable integer
(53-bit significand, ties to even). -/
def f64roundNat (n : Nat) : Nat :=
  if n ≤ 2 ^ 53 then n
  else
    let e := natLog2 n - 52
    let q := n / 2 ^ e
    let r := n % 2 ^ e
    let half := 2 ^ (e - 1)
    let q' := if half < r ∨ (r = half ∧ q % 2 = 1) then q + 1 else q
    q' * 2 ^ e

/-- Round an integer to the nearest float64-representable integer. -/
def f64roundInt (n : Int) : Int :=
  if 0 ≤ n then (f64roundNat n.toNat : Int) else -(f64roundNat (-n).toNat : Int)

/-! ### Token codec (`GenerateJWT` / `ValidateJWT`)

The jwt library is modelled at the level of its observable behaviour: a
token is its declared algorithm, its claim set, and its HMAC signature.
The signature is modelled as the data that determines it (secret, header
algorithm, serialized claims); `verify` succeeds exactly when the
recomputed signature under the configured secret equals the embedded one,
which is the defining property of HMAC-SHA256 used by `SigningMethodHS256`. -/

/-- Declared signing algorithm of a token header. -/
inductive JWTAlg where
  | HS256
  | RS256
  | noAlg
  deriving DecidableEq, Repr

/-- Models the type test `token.Method.(*jwt.SigningMethodHMAC)` in the
keyfunc of `ValidateJWT`. -/
def JWTAlg.isHMAC : JWTAlg → Bool
  | .HS256 => true
  | _ => false

/-- The claim set written by `GenerateJWT`: `user_id`, `username`, `role`,
`exp`, `iat`, `jti`.  Integers here are the exact values serialized into
the JSON payload (Go marshals `int64` exactly). -/
structure Claims where
  user_id : Int
  username : String
  role : String
  exp : Int
  iat : Int
  jti : String
  deriving DecidableEq, Repr

/-- An HMAC signature, modelled by the data that determines it. -/
structure Sig where
  secret : String
  alg : JWTAlg
  claims : Claims
  deriving DecidableEq, Repr

/-- A compact signed token (header.payload.signature). -/
structure Token where
  alg : JWTAlg
  claims : Claims
  sig : Sig
  deriving DecidableEq, Repr

/-- Models `models.JWTPayload`, the result of `ValidateJWT`'s claim
extraction (numeric claims pass through the float64 decode). -/
structure JWTPayload where
  UserID : Int
  Username : String
  Role : String
  Exp : Int
  Iat : Int
  deriving DecidableEq, Repr

/-- Error kinds surfaced by `ValidateJWT` (the Go code wraps them all in
`fmt.Errorf("invalid token: %w", err)`, preserving the kind). -/
inductive JWTError where
  | malformed
  | unexpectedSigningMethod
  | signatureInvalid
  | tokenExpired
  deriving DecidableEq, Repr

/-- Models `AuthService.GenerateJWT` (auth_service.go:138): expiry is
`now + jwtExpire` hours, claims carry identity, role, `exp`, `iat`, `jti`,
and the token is signed with HS256 under the service secret.  Returns the
token together with `expiresAt` (Unix seconds). -/
def GenerateJWT (secret : String) (jwtExpire : Int) (userID : Int)
    (username role : String) (now : Int) (jti : String) : Token × Int :=
  let expiresAt := now + jwtExpire * 3600
  let claims : Claims :=
    { user_id := userID, username := username, role := role,
      exp := expiresAt, iat := now, jti := jti }
  ({ alg := .HS256, claims := claims, sig := { secret := secret, alg := .HS256, claims := claims } },
   expiresAt)

/-- Models `AuthService.ValidateJWT` (auth_service.go:161) on a
structurally intact token: the keyfunc rejects non-HMAC algorithms, the
library verifies the HMAC signature, then validates `exp` against `now`
(the jwt/v5 validator accepts the token exactly while `now` is before the
decoded expiry), and finally the code extracts `user_id`, `username`,
`role`, `exp`, `iat` from the float64-decoded claim map. -/
def ValidateJWT (secret : String) (now : Int) (tok : Token) :
    Except JWTError JWTPayload :=
  if tok.alg.isHMAC = false then .error .unexpectedSigningMethod
  else if tok.sig ≠ { secret := secret, alg := tok.alg, claims := tok.claims : Sig } then
    .error .signatureInvalid
  else if ¬ now < f64roundInt tok.claims.exp then .error .tokenExpired
  else
    .ok { UserID := f64roundInt tok.claims.user_id,
          Username := tok.claims.username,
          Role := tok.claims.role,
          Exp := f64roundInt tok.claims.exp,
          Iat := f64roundInt tok.claims.iat }

/-- Models `ValidateJWT` applied to a raw token string, as the middleware
does: `jwt.Parse` first decodes the compact serialization (failing with a
malformed-token error on garbage), then proceeds as `ValidateJWT`.  The
decoding of well-formed serializations is abstracted by `decode`. -/
def ValidateJWTString (decode : String → Option Token) (secret : String)
    (now : Int) (s : String) : Except JWTError JWTPayload :=
  match decode s with
  | none => .error .malformed
  | some tok => ValidateJWT secret now tok

/-! ### ClickHouse user store (database/database.go)

The `users` table is modelled as a list of rows.  A `QueryRow ... LIMIT 1`
lookup returns the first matching row, or the driver's no-rows error when
the result set is empty; a `(*User, error)` pair is `Except String User`. -/

/-- Models `ClickHouseDB.GetUserByID` (database.go:412). -/
def dbGetUserByID (rows : List User) (userID : Int) : Except String User :=
  match rows.find? (fun r => r.id == userID) with
  | some u => .ok u
  | none => .error "no rows"

/-- Models `ClickHouseDB.GetUserByUsername` (database.go:445). -/
def dbGetUserByUsername (rows : List User) (username : String) : Except String User :=
  match rows.find? (fun r => r.username == username) with
  | some u => .ok u
  | none => .error "no rows"

/-- Models `ClickHouseDB.InsertUser` (database.go:386).  The Go code
generates `userID := time.Now().UnixNano()` as the new identifier, but the
INSERT statement lists only
`(username, email, password, role, is_active, created_at, updated_at)` —
the `id` column is not part of the INSERT, so the stored row receives the
ClickHouse column default `0` (and `last_login` the default `NULL`).
The generated `userID` is only returned to the caller. -/
def InsertUser (rows : List User) (u : User) (nowNanos : Int) : List User × Int :=
  (rows ++ [{ id := 0, username := u.username, email := u.email,
              password := u.password, role := u.role, isActive := u.isActive,
              createdAt := u.createdAt, updatedAt := u.updatedAt,
              lastLogin := none }],
   nowNanos)

/-- Models `ClickHouseDB.UpdateUser` (database.go:511):
`ALTER TABLE users UPDATE username, email, role, is_active, updated_at
WHERE id = ?` — password, created_at and last_login are untouched. -/
def dbUpdateUser (rows : List User) (u : User) : List User :=
  rows.map fun r =>
    if r.id == u.id then
      { r with username := u.username, email := u.email, role := u.role,
               isActive := u.isActive, updatedAt := u.updatedAt }
    else r

/-- Models `ClickHouseDB.UpdateUserLastLogin` (database.go:546):
`ALTER TABLE users UPDATE last_login = ?, updated_at = ? WHERE id = ?`. -/
def UpdateUserLastLogin (rows : List User) (userID : Int) (lastLogin nowU : Int) :
    List User :=
  rows.map fun r =>
    if r.id == userID then { r with lastLogin := some lastLogin, updatedAt := nowU }
    else r

/-- Insert a row into a list kept in descending `created_at` order
(models the effect of `ORDER BY created_at DESC`). -/
def insertByCreatedDesc (u : User) : List User → List User
  | [] => [u]
  | v :: vs =>
    if v.createdAt ≤ u.createdAt then u :: v :: vs
    else v :: insertByCreatedDesc u vs

/-- Sort rows by `created_at` descending (models `ORDER BY created_at DESC`;
any ordering the SQL engine picks among equal keys satisfies the same
descending-pairwise property proved below). -/
def sortByCreatedDesc : List User → List User
  | [] => []
  | u :: us => insertByCreatedDesc u (sortByCreatedDesc us)

/-- Models `ClickHouseDB.GetUsers` (database.go:562): optional role
filter, `COUNT(*)` total, rows ordered by `created_at DESC` with
`LIMIT perPage OFFSET (page-1)*perPage` (the SELECT omits the password
column, so scanned rows carry the zero value), and
`totalPages := (total + perPage - 1) / perPage`. -/
def dbGetUsers (rows : List User) (page perPage : Int) (role : String) :
    UserListResponse :=
  let filtered := if role ≠ "" then rows.filter (fun u => u.role == role) else rows
  let total : Int := filtered.length
  let offset := (page - 1) * perPage
  let users :=
    (((sortByCreatedDesc filtered).drop offset.toNat).take perPage.toNat).map
      fun u => { u with password := .empty }
  let totalPages := (total + perPage - 1) / perPage
  { users := users, total := total, page := page, perPage := perPage,
    totalPages := totalPages }

/-- Ceiling division, written from the spec's words: "total pages computed
by ceiling division".  Used to compare the code's formula against the
spec's arithmetic. -/
def ceilingDivSpec (a b : Int) : Int :=
  if a % b = 0 then a / b else a / b + 1

/-! ### Auth service (services/auth_service.go)

The user directory is an external collaborator whose calls can fail
independently; where the service merely inspects a lookup's outcome, the
outcome `(user, err)` is passed in as `Except String (Option User)`
(`.ok (some u)` for a hit, `.error e` for a failed call, `.ok none` for
the nil-nil corner). -/

/-- Error kinds returned by `Register` (the Go messages are
`"user with username %s already exists"` / `"user with email %s already
exists"`). -/
inductive RegError where
  | duplicateUsername (username : String)
  | duplicateEmail (email : String)
  deriving DecidableEq, Repr

/-- Models `AuthService.Register` (auth_service.go:34).  `lookupU` and
`lookupE` are the outcomes of `GetUserByUsername(req.Username)` and
`GetUserByEmail(req.Email)`; the duplicate pre-check fires only on
`err == nil && existing != nil`.  The password is bcrypt-hashed with a
fresh salt, the role defaults to `"user"`, and the new active record is
inserted via `InsertUser`; the returned view carries the generated id and
a cleared password. -/
def Register (lookupU lookupE : Except String (Option User)) (rows : List User)
    (req : UserCreateRequest) (salt : String) (now nowNanos : Int) :
    Except RegError (List User × User) :=
  match lookupU with
  | .ok (some _) => .error (.duplicateUsername req.username)
  | _ =>
    match lookupE with
    | .ok (some _) => .error (.duplicateEmail req.email)
    | _ =>
      let role := if req.role = "" then "user" else req.role
      let user : User :=
        { id := 0, username := req.username, email := req.email,
          password := .hashed salt req.password, role := role,
          isActive := true, createdAt := now, updatedAt := now,
          lastLogin := none }
      let ins := InsertUser rows user nowNanos
      .ok (ins.1, { user with id := ins.2, password := .empty })

/-- Models `models.LoginResponse`. -/
structure LoginResponse where
  token : Token
  expiresAt : Int
  user : User
  deriving DecidableEq, Repr

/-- Models `AuthService.Login` (auth_service.go:88).  The checks run in
source order: username lookup (failure ⇒ `"invalid credentials"`), then
the `IsActive` flag (⇒ `"account is disabled"`), then the bcrypt
comparison (failure ⇒ `"invalid credentials"`); on success a token is
issued and `last_login` is updated best-effort.  Returns the updated
directory together with the response. -/
def Login (rows : List User) (secret : String) (jwtExpire : Int)
    (username password : String) (now : Int) (jti : String) :
    Except String (List User × LoginResponse) :=
  match dbGetUserByUsername rows username with
  | .error _ => .error "invalid credentials"
  | .ok user =>
    if user.isActive = false then .error "account is disabled"
    else if bcryptVerify password user.password = false then
      .error "invalid credentials"
    else
      let gen := GenerateJWT secret jwtExpire user.id user.username user.role now jti
      let rows' := UpdateUserLastLogin rows user.id now now
      .ok (rows', { token := gen.1, expiresAt := gen.2,
                    user := { user with lastLogin := some now, password := .empty } })

/-- Models `AuthService.UpdateUser` (auth_service.go:233).  Only
non-empty / non-nil request fields are applied; for a non-empty username
or email the corresponding lookup outcome is consulted and the update is
rejected when it found a different user; `updated_at` is always set to
`now` and the result is persisted via the ALTER statement of
`dbUpdateUser`.  The returned view has the password cleared. -/
def UpdateUser (rows : List User) (userID : Int) (req : UserUpdateRequest)
    (lookupU lookupE : Except String (Option User)) (now : Int) :
    Except String (List User × User) :=
  match dbGetUserByID rows userID with
  | .error _ => .error "user not found"
  | .ok user0 =>
    let step1 : Except String User :=
      if req.username ≠ "" then
        match lookupU with
        | .ok (some ex) =>
          if ex.id ≠ userID then .error ("username " ++ req.username ++ " is already taken")
          else .ok { user0 with username := req.username }
        | _ => .ok { user0 with username := req.username }
      else .ok user0
    match step1 with
    | .error e => .error e
    | .ok user1 =>
      let step2 : Except String User :=
        if req.email ≠ "" then
          match lookupE with
          | .ok (some ex) =>
            if ex.id ≠ userID then .error ("email " ++ req.email ++ " is already taken")
            else .ok { user1 with email := req.email }
          | _ => .ok { user1 with email := req.email }
        else .ok user1
      match step2 with
      | .error e => .error e
      | .ok user2 =>
        let user3 := if req.role ≠ "" then { user2 with role := req.role } else user2
        let user4 :=
          match req.isActive with
          | some b => { user3 with isActive := b }
          | none => user3
        let user5 := { user4 with updatedAt := now }
        .ok (dbUpdateUser rows user5, { user5 with password := .empty })

/-! ### Auth HTTP handler (`GetUsers`, the users-list endpoint) -/

/-- Models the query-parameter handling of the `GetUsers` handler:
`page, _ := strconv.Atoi(...); if page < 1 { page = 1 }` and
`perPage, _ := strconv.Atoi(...); if perPage < 1 || perPage > 100
{ perPage = 10 }` (an `Atoi` parse error leaves the zero value `0`,
covered by the `< 1` branch). -/
def parseListParams (page perPage : Int) : Int × Int :=
  let page' := if page < 1 then 1 else page
  let perPage' := if perPage < 1 ∨ 100 < perPage then 10 else perPage
  (page', perPage')

/-! ### Access Gate (middleware JWT, `JWTWithConfig`) -/

/-- Character-level model of `strings.HasPrefix`. -/
def listIsPrefix : List Char → List Char → Bool
  | [], _ => true
  | _ :: _, [] => false
  | a :: as, b :: bs => a == b && listIsPrefix as bs

/-- Models `strings.HasPrefix s pre`. -/
def goHasPrefix (s pre : String) : Bool := listIsPrefix pre.data s.data

/-- Models `strings.TrimPrefix s pre`. -/
def goTrimPrefix (s pre : String) : String :=
  if goHasPrefix s pre then ⟨s.data.drop pre.data.length⟩ else s

/-- Outcome of one pass through the JWT middleware: an early 401, a 403,
or the request forwarded to the next handler with `user_id`, `username`
and `user_role` bound into the request context via `c.Set`. -/
inductive GateOutcome where
  | unauthorized (msg : String)
  | forbidden (msg : String)
  | forwardedWith (userId : Int) (username : String) (role : String)
  deriving DecidableEq, Repr

/-- Models `JWTWithConfig` (middleware JWT, with the default
always-false skipper): extract the `Authorization: Bearer` token,
delegate verification to `AuthService.ValidateJWT`, enforce the
configured `RequiredRole` (403 on exact mismatch), and on success bind
the verified identity into the context and invoke the next handler. -/
def JWTWithConfig (decode : String → Option Token) (secret : String)
    (requiredRole : String) (now : Int) (authHeader : Option String) :
    GateOutcome :=
  match authHeader with
  | none => .unauthorized "Missing Authorization header"
  | some h =>
    if goHasPrefix h "Bearer " = false then
      .unauthorized "Invalid Authorization header format"
    else
      let token := goTrimPrefix h "Bearer "
      if token = "" then .unauthorized "Empty token"
      else
        match ValidateJWTString decode secret now token with
        | .error _ => .unauthorized "Invalid token"
        | .ok payload =>
          if requiredRole ≠ "" ∧ payload.Role ≠ requiredRole then
            .forbidden "Insufficient permissions"
          else
            .forwardedWith payload.UserID payload.Username payload.Role

/-! ### Helper lemmas -/

/-- Integers up to `2^53` are exactly representable in a float64. -/
theorem f64roundNat_eq_of_le {n : Nat} (h : n ≤ 2 ^ 53) : f64roundNat n = n := by
  unfold f64roundNat
  rw [if_pos h]

/-- Integers of magnitude at most `2^53` survive the float64 decode. -/
theorem f64roundInt_eq_of_bounds {n : Int} (h1 : -(2 ^ 53) ≤ n) (h2 : n ≤ 2 ^ 53) :
    f64roundInt n = n := by
  have hp : (2 : Int) ^ 53 = ((2 ^ 53 : Nat) : Int) := by norm_num
  rw [hp] at h1 h2
  unfold f64roundInt
  by_cases hn : 0 ≤ n
  · rw [if_pos hn]
    have ht : n.toNat ≤ 2 ^ 53 := by omega
    rw [f64roundNat_eq_of_le ht]
    omega
  · rw [if_neg hn]
    have ht : (-n).toNat ≤ 2 ^ 53 := by omega
    rw [f64roundNat_eq_of_le ht]
    omega

/-! ### Token codec claims (C2, C3) -/

/-- C2, counterexample: the round-trip `verify(issue(u, name, role, t0), t0)`
does not always return exactly the `user_id` that was put in.  For
`user_id = 2^53 + 1` the token verifies at `t0` but the returned
`user_id` is `2^53`: `ValidateJWT` reads the claim through the jwt
library's JSON decode into `float64`, which rounds integers above `2^53`.
(Identifiers produced by the code are `UnixNano` values around `1.7e18`,
well above `2^53`, so the loss occurs for realistic tokens.) -/
theorem c2_roundtrip_counterexample :
    ValidateJWT "sec" 0 (GenerateJWT "sec" 24 (2 ^ 53 + 1) "alice" "user" 0 "j1").1 =
      .ok { UserID := 2 ^ 53, Username := "alice", Role := "user",
            Exp := 86400, Iat := 0 } ∧
    (2 ^ 53 : Int) ≠ 2 ^ 53 + 1 :=
  ⟨by decide, by decide⟩

/-- C2, amended: for every token issued by
`issue(user_id, username, role, t0)` with the configured secret and a
positive configured duration, if `user_id` is exactly representable in a
float64 (`|user_id| ≤ 2^53`) and the timestamps lie in the representable
range, then `verify` of that token at time `t0` with the same secret
succeeds and returns exactly the `user_id`, `username` and `role` that
were put in. -/
theorem c2_roundtrip_representable (secret username role jti : String)
    (jwtExpire u t0 : Int) (hh : 0 < jwtExpire) (ht0 : 0 ≤ t0)
    (hexp : t0 + jwtExpire * 3600 ≤ 2 ^ 53)
    (hul : -(2 ^ 53) ≤ u) (huu : u ≤ 2 ^ 53) :
    ValidateJWT secret t0 (GenerateJWT secret jwtExpire u username role t0 jti).1 =
      .ok { UserID := u, Username := username, Role := role,
            Exp := t0 + jwtExpire * 3600, Iat := t0 } := by
  have hexp0 : 0 ≤ t0 + jwtExpire * 3600 := by omega
  have he : f64roundInt (t0 + jwtExpire * 3600) = t0 + jwtExpire * 3600 :=
    f64roundInt_eq_of_bounds (by omega) hexp
  have hu : f64roundInt u = u := f64roundInt_eq_of_bounds hul huu
  have hi : f64roundInt t0 = t0 := f64roundInt_eq_of_bounds (by omega) (by omega)
  have hlt : t0 < t0 + jwtExpire * 3600 := by omega
  simp only [GenerateJWT, ValidateJWT, JWTAlg.isHMAC, he, hu, hi]
  simp [hlt]

/-- Witness for `c2_roundtrip_representable` at a concrete input. -/
theorem c2_roundtrip_representable_witness :
    ((0 : Int) < 24 ∧ (0 : Int) ≤ 0 ∧ (0 : Int) + 24 * 3600 ≤ 2 ^ 53 ∧
      -(2 ^ 53) ≤ (7 : Int) ∧ (7 : Int) ≤ 2 ^ 53) ∧
    ValidateJWT "sec" 0 (GenerateJWT "sec" 24 7 "alice" "user" 0 "j1").1 =
      .ok { UserID := 7, Username := "alice", Role := "user",
            Exp := 0 + 24 * 3600, Iat := 0 } :=
  ⟨⟨by decide, by decide, by decide, by decide, by decide⟩,
   c2_roundtrip_representable "sec" "alice" "user" "j1" 24 7 0
     (by decide) (by decide) (by decide) (by decide) (by decide)⟩

/-- C3: for every token issued at time `t0` (timestamps in the
float64-representable range, which covers all realistic clock values),
the embedded expiry equals `t0` plus the configured duration in hours,
and `verify` of that token at any time strictly past the embedded expiry
fails with the `tokenExpired` error kind. -/
theorem c3_expiry (secret username role jti : String) (jwtExpire u t0 t : Int)
    (hnn : 0 ≤ t0 + jwtExpire * 3600)
    (hrep : t0 + jwtExpire * 3600 ≤ 2 ^ 53)
    (hpast : t0 + jwtExpire * 3600 < t) :
    (GenerateJWT secret jwtExpire u username role t0 jti).2 = t0 + jwtExpire * 3600 ∧
    ValidateJWT secret t (GenerateJWT secret jwtExpire u username role t0 jti).1 =
      .error .tokenExpired := by
  constructor
  · rfl
  · have he : f64roundInt (t0 + jwtExpire * 3600) = t0 + jwtExpire * 3600 :=
      f64roundInt_eq_of_bounds (by omega) hrep
    have hnlt : ¬ t < t0 + jwtExpire * 3600 := by omega
    simp only [GenerateJWT, ValidateJWT, JWTAlg.isHMAC, he]
    simp [hnlt]

/-- Witness for `c3_expiry` at a concrete input: 24h token issued at 0,
verified at `86401 = expiry + 1s`. -/
theorem c3_expiry_witness :
    ((0 : Int) ≤ 0 + 24 * 3600 ∧ (0 : Int) + 24 * 3600 ≤ 2 ^ 53 ∧
      (0 : Int) + 24 * 3600 < 86401) ∧
    (GenerateJWT "sec" 24 7 "alice" "user" 0 "j1").2 = 0 + 24 * 3600 ∧
    ValidateJWT "sec" 86401 (GenerateJWT "sec" 24 7 "alice" "user" 0 "j1").1 =
      .error .tokenExpired :=
  ⟨⟨by decide, by decide, by decide⟩,
   c3_expiry "sec" "alice" "user" "j1" 24 7 0 86401 (by decide) (by decide) (by decide)⟩

/-! ### Registration identifier claim (C1) -/

/-- C1: evaluation of the code at a failing input.  `Register` on an empty
directory returns a view whose id is the generated `UnixNano` value
(`1700000000000000000`), but the row persisted by `InsertUser` carries the
ClickHouse column default id `0` — the INSERT omits the `id` column — so
a subsequent lookup-by-identifier with the returned value finds no record,
contradicting the claim (and the code's own "auto-increment simulation"
comment, and the `/auth/me` handler which looks the user up by exactly
this id). -/
theorem c1_register_id_not_persisted :
    ∃ rows' ret,
      Register (.error "no rows") (.error "no rows") []
          { username := "alice", email := "alice@x.com",
            password := "secret1", role := "" }
          "salt1" 1700000000 1700000000000000000 = .ok (rows', ret) ∧
      ret.id = 1700000000000000000 ∧
      dbGetUserByID rows' ret.id = .error "no rows" ∧
      ∀ r ∈ rows', r.id = 0 :=
  ⟨_, _, rfl, by decide, by decide, by decide⟩

/-! ### Login claims (C4, C5) -/

/-- C4: for a username absent from the directory and for an existing
active user with a non-matching password, `Login` fails with the same
`"invalid credentials"` error — identical message and shape in both
cases, so the responses do not reveal whether the username exists. -/
theorem c4_no_username_enumeration (rows : List User) (secret : String)
    (jwtExpire : Int) (ghost anyPw wrongPw : String) (v : User)
    (now : Int) (jti : String)
    (hghost : dbGetUserByUsername rows ghost = .error "no rows")
    (hv : dbGetUserByUsername rows v.username = .ok v)
    (hactive : v.isActive = true)
    (hwrong : bcryptVerify wrongPw v.password = false) :
    Login rows secret jwtExpire ghost anyPw now jti = .error "invalid credentials" ∧
    Login rows secret jwtExpire v.username wrongPw now jti = .error "invalid credentials" ∧
    Login rows secret jwtExpire ghost anyPw now jti =
      Login rows secret jwtExpire v.username wrongPw now jti := by
  have h1 : Login rows secret jwtExpire ghost anyPw now jti = .error "invalid credentials" := by
    unfold Login
    rw [hghost]
  have h2 : Login rows secret jwtExpire v.username wrongPw now jti =
      .error "invalid credentials" := by
    unfold Login
    rw [hv]
    simp [hactive, hwrong]
  exact ⟨h1, h2, h1.trans h2.symm⟩

/-- Witness for `c4_no_username_enumeration` at a concrete directory. -/
theorem c4_no_username_enumeration_witness :
    (dbGetUserByUsername
        [{ id := 5, username := "carol", email := "c@x.com",
           password := .hashed "s1" "secret1", role := "user", isActive := true,
           createdAt := 10, updatedAt := 10, lastLogin := none }] "ghost" =
        .error "no rows" ∧
      bcryptVerify "wrongpw" (StoredPassword.hashed "s1" "secret1") = false) ∧
    Login [{ id := 5, username := "carol", email := "c@x.com",
             password := .hashed "s1" "secret1", role := "user", isActive := true,
             createdAt := 10, updatedAt := 10, lastLogin := none }]
        "sec" 24 "ghost" "x" 0 "j" = .error "invalid credentials" ∧
    Login [{ id := 5, username := "carol", email := "c@x.com",
             password := .hashed "s1" "secret1", role := "user", isActive := true,
             createdAt := 10, updatedAt := 10, lastLogin := none }]
        "sec" 24 "carol" "wrongpw" 0 "j" = .error "invalid credentials" :=
  ⟨⟨by decide, by decide⟩,
   (c4_no_username_enumeration
      [{ id := 5, username := "carol", email := "c@x.com",
         password := .hashed "s1" "secret1", role := "user", isActive := true,
         createdAt := 10, updatedAt := 10, lastLogin := none }]
      "sec" 24 "ghost" "x" "wrongpw"
      { id := 5, username := "carol", email := "c@x.com",
        password := .hashed "s1" "secret1", role := "user", isActive := true,
        createdAt := 10, updatedAt := 10, lastLogin := none }
      0 "j" (by decide) (by decide) (by decide) (by decide)).1,
   (c4_no_username_enumeration
      [{ id := 5, username := "carol", email := "c@x.com",
         password := .hashed "s1" "secret1", role := "user", isActive := true,
         createdAt := 10, updatedAt := 10, lastLogin := none }]
      "sec" 24 "ghost" "x" "wrongpw"
      { id := 5, username := "carol", email := "c@x.com",
        password := .hashed "s1" "secret1", role := "user", isActive := true,
        createdAt := 10, updatedAt := 10, lastLogin := none }
      0 "j" (by decide) (by decide) (by decide) (by decide)).2.1⟩

/-- C5, counterexample: a login with a NON-matching password against a
disabled account yields the account-disabled error, because `Login`
checks the `IsActive` flag before verifying the password.  This refutes
the claim that `AccountDisabled` occurs only when the password matches. -/
theorem c5_disabled_counterexample :
    bcryptVerify "wrongpw" (StoredPassword.hashed "s1" "secret1") = false ∧
    Login [{ id := 5, username := "bob", email := "b@x.com",
             password := .hashed "s1" "secret1", role := "user", isActive := false,
             createdAt := 10, updatedAt := 10, lastLogin := none }]
        "sec" 24 "bob" "wrongpw" 0 "j" = .error "account is disabled" :=
  ⟨by decide, by decide⟩

/-- C5, amended: `Login` fails with the account-disabled error if and
only if the username lookup finds a record with `active = false` —
regardless of whether the supplied password matches, since the active
check precedes password verification. -/
theorem c5_disabled_iff (rows : List User) (secret : String) (jwtExpire : Int)
    (username password : String) (now : Int) (jti : String) :
    Login rows secret jwtExpire username password now jti = .error "account is disabled" ↔
    ∃ u, dbGetUserByUsername rows username = .ok u ∧ u.isActive = false := by
  unfold Login
  cases hl : dbGetUserByUsername rows username with
  | error e => simp
  | ok u =>
    by_cases ha : u.isActive = false
    · simp [ha]
    · have ha' : u.isActive = true := by revert ha; cases u.isActive <;> simp
      by_cases hb : bcryptVerify password u.password = false
      · simp [ha', hb]
      · simp [ha', hb]

/-! ### Users-list parameter handling (C6) -/

/-- C6, counterexample: a `per_page` of `150` is not clamped to `100` —
the handler resets any out-of-range `per_page` to the default `10`. -/
theorem c6_perpage_counterexample :
    parseListParams 1 150 = (1, 10) ∧ (10 : Int) ≠ 100 :=
  ⟨by decide, by decide⟩

/-- C6, amended: before the query runs, a `page` below 1 is raised to 1
(in-range pages pass through), and a `per_page` outside `[1,100]` is
replaced by the default `10` (not clamped to the nearer bound); in-range
`per_page` values pass through.  The resulting values always satisfy
`page ≥ 1` and `1 ≤ per_page ≤ 100`. -/
theorem c6_page_perpage_sanitization (page perPage : Int) :
    (1 ≤ (parseListParams page perPage).1 ∧
      1 ≤ (parseListParams page perPage).2 ∧ (parseListParams page perPage).2 ≤ 100) ∧
    (page < 1 → (parseListParams page perPage).1 = 1) ∧
    (1 ≤ page → (parseListParams page perPage).1 = page) ∧
    ((perPage < 1 ∨ 100 < perPage) → (parseListParams page perPage).2 = 10) ∧
    (1 ≤ perPage → perPage ≤ 100 → (parseListParams page perPage).2 = perPage) := by
  unfold parseListParams
  by_cases h1 : page < 1 <;> by_cases h2 : perPage < 1 ∨ 100 < perPage <;>
    simp only [h1, h2, if_pos, if_neg, not_false_iff] <;> simp_all <;> omega

/-- Witness for `c6_page_perpage_sanitization`: page 0 is raised to 1 and
per_page 150 becomes the default 10. -/
theorem c6_page_perpage_sanitization_witness :
    ((0 : Int) < 1 ∧ ((150 : Int) < 1 ∨ (100 : Int) < 150)) ∧
    (parseListParams 0 150).1 = 1 ∧ (parseListParams 0 150).2 = 10 :=
  ⟨⟨by decide, by decide⟩,
   (c6_page_perpage_sanitization 0 150).2.1 (by decide),
   (c6_page_perpage_sanitization 0 150).2.2.2.1 (by decide)⟩

/-! ### Pagination claim (C7) -/

theorem mem_insertByCreatedDesc {a u : User} {l : List User} :
    a ∈ insertByCreatedDesc u l ↔ a = u ∨ a ∈ l := by
  induction l with
  | nil => simp [insertByCreatedDesc]
  | cons v vs ih =>
    by_cases h : v.createdAt ≤ u.createdAt
    · simp only [insertByCreatedDesc, if_pos h, List.mem_cons]
    · simp only [insertByCreatedDesc, if_neg h, List.mem_cons, ih]
      tauto

theorem pairwise_insertByCreatedDesc {u : User} {l : List User}
    (hl : l.Pairwise fun a b => b.createdAt ≤ a.createdAt) :
    (insertByCreatedDesc u l).Pairwise fun a b => b.createdAt ≤ a.createdAt := by
  induction l with
  | nil => simp [insertByCreatedDesc]
  | cons v vs ih =>
    rcases List.pairwise_cons.mp hl with ⟨hv, hvs⟩
    by_cases h : v.createdAt ≤ u.createdAt
    · rw [insertByCreatedDesc, if_pos h]
      refine List.pairwise_cons.mpr ⟨?_, hl⟩
      intro b hb
      rcases List.mem_cons.mp hb with rfl | hb
      · exact h
      · exact le_trans (hv b hb) h
    · rw [insertByCreatedDesc, if_neg h]
      refine List.pairwise_cons.mpr ⟨?_, ih hvs⟩
      intro b hb
      rcases mem_insertByCreatedDesc.mp hb with rfl | hb
      · omega
      · exact hv b hb

theorem pairwise_sortByCreatedDesc (l : List User) :
    (sortByCreatedDesc l).Pairwise fun a b => b.createdAt ≤ a.createdAt := by
  induction l with
  | nil => simp [sortByCreatedDesc]
  | cons u us ih => exact pairwise_insertByCreatedDesc ih

/-- The code's `(t + p - 1) / p` computes ceiling division, at the level
of natural numbers. -/
theorem natCeilFormula (t p : Nat) (hp : 0 < p) :
    (t + p - 1) / p = if t % p = 0 then t / p else t / p + 1 := by
  have h1 : t + p - 1 = t + (p - 1) := by omega
  have h2 : (p - 1) / p = 0 := Nat.div_eq_of_lt (by omega)
  have h3 : (p - 1) % p = p - 1 := Nat.mod_eq_of_lt (by omega)
  rw [h1, Nat.add_div hp, h2, h3]
  have hmod : t % p < p := Nat.mod_lt _ hp
  by_cases hz : t % p = 0
  · rw [if_pos hz, if_neg (show ¬ p ≤ t % p + (p - 1) by omega)]
    omega
  · rw [if_neg hz, if_pos (show p ≤ t % p + (p - 1) by omega)]

/-- The code's `(t + p - 1) / p` computes ceiling division (integer
version; on the nonnegative operands involved, Go's truncated division,
Lean's Euclidean division and natural division all agree). -/
theorem intCeilFormula (t : Nat) (p : Int) (hp : 0 < p) :
    ((t : Int) + p - 1) / p = ceilingDivSpec (t : Int) p := by
  obtain ⟨q, rfl⟩ : ∃ q : Nat, p = (q : Int) := ⟨p.toNat, (Int.toNat_of_nonneg hp.le).symm⟩
  have hq : 0 < q := by exact_mod_cast hp
  have h1 : (t : Int) + (q : Int) - 1 = ((t + q - 1 : Nat) : Int) := by omega
  rw [ceilingDivSpec, h1, ← Int.ofNat_ediv, natCeilFormula t q hq, ← Int.ofNat_emod,
    ← Int.ofNat_ediv]
  by_cases hz : t % q = 0
  · rw [if_pos hz, if_pos (by exact_mod_cast hz)]
  · rw [if_neg hz, if_neg (by exact_mod_cast hz)]
    push_cast
    ring

/-- C7: for every users-list result with `per_page > 0`, the returned
`total_pages` is the ceiling of `total / per_page`, and the returned
users are ordered by creation time descending. -/
theorem c7_pagination (rows : List User) (page perPage : Int) (role : String)
    (hp : 0 < perPage) :
    (dbGetUsers rows page perPage role).totalPages =
      ceilingDivSpec (dbGetUsers rows page perPage role).total perPage ∧
    (dbGetUsers rows page perPage role).users.Pairwise
      (fun a b => b.createdAt ≤ a.createdAt) := by
  dsimp only [dbGetUsers]
  constructor
  · exact intCeilFormula _ perPage hp
  · exact List.pairwise_map.mpr
      (List.Pairwise.sublist ((List.take_sublist _ _).trans (List.drop_sublist _ _))
        (pairwise_sortByCreatedDesc _))

/-- Witness for `c7_pagination` at a concrete three-user directory with
page 1, per_page 2: total pages is `ceil(3/2)` and the page is sorted by
creation time descending. -/
theorem c7_pagination_witness :
    (0 : Int) < 2 ∧
    ((dbGetUsers
        [{ id := 1, username := "u1", email := "1@x", password := .empty,
           role := "user", isActive := true, createdAt := 100, updatedAt := 0,
           lastLogin := none },
         { id := 3, username := "u3", email := "3@x", password := .empty,
           role := "user", isActive := true, createdAt := 300, updatedAt := 0,
           lastLogin := none },
         { id := 2, username := "u2", email := "2@x", password := .empty,
           role := "user", isActive := true, createdAt := 200, updatedAt := 0,
           lastLogin := none }] 1 2 "").totalPages =
      ceilingDivSpec (dbGetUsers
        [{ id := 1, username := "u1", email := "1@x", password := .empty,
           role := "user", isActive := true, createdAt := 100, updatedAt := 0,
           lastLogin := none },
         { id := 3, username := "u3", email := "3@x", password := .empty,
           role := "user", isActive := true, createdAt := 300, updatedAt := 0,
           lastLogin := none },
         { id := 2, username := "u2", email := "2@x", password := .empty,
           role := "user", isActive := true, createdAt := 200, updatedAt := 0,
           lastLogin := none }] 1 2 "").total 2 ∧
      (dbGetUsers
        [{ id := 1, username := "u1", email := "1@x", password := .empty,
           role := "user", isActive := true, createdAt := 100, updatedAt := 0,
           lastLogin := none },
         { id := 3, username := "u3", email := "3@x", password := .empty,
           role := "user", isActive := true, createdAt := 300, updatedAt := 0,
           lastLogin := none },
         { id := 2, username := "u2", email := "2@x", password := .empty,
           role := "user", isActive := true, createdAt := 200, updatedAt := 0,
           lastLogin := none }] 1 2 "").users.Pairwise
        (fun a b => b.createdAt ≤ a.createdAt)) :=
  ⟨by decide,
   c7_pagination
     [{ id := 1, username := "u1", email := "1@x", password := .empty,
        role := "user", isActive := true, createdAt := 100, updatedAt := 0,
        lastLogin := none },
      { id := 3, username := "u3", email := "3@x", password := .empty,
        role := "user", isActive := true, createdAt := 300, updatedAt := 0,
        lastLogin := none },
      { id := 2, username := "u2", email := "2@x", password := .empty,
        role := "user", isActive := true, createdAt := 200, updatedAt := 0,
        lastLogin := none }] 1 2 "" (by decide)⟩

/-! ### Partial-update frame claim (C8) -/

/-- C8: updating an existing user with an all-empty request leaves
username, email, role and the active flag of the stored record (and the
returned view) unchanged, while still refreshing `updated_at`; the only
net effect on the directory is the new `updated_at` on the user's row.
The hypothesis `huniq` is the directory invariant that identifiers are
unique. -/
theorem c8_empty_update_frame (rows : List User) (userID : Int)
    (lookupU lookupE : Except String (Option User)) (now : Int) (u : User)
    (hfind : dbGetUserByID rows userID = .ok u)
    (huniq : ∀ r ∈ rows, r.id = u.id → r = u) :
    UpdateUser rows userID { username := "", email := "", role := "", isActive := none }
        lookupU lookupE now =
      .ok ((rows.map fun r => if r.id == u.id then { r with updatedAt := now } else r),
           { u with updatedAt := now, password := .empty }) := by
  have hmap : dbUpdateUser rows { u with updatedAt := now } =
      rows.map fun r => if r.id == u.id then { r with updatedAt := now } else r := by
    unfold dbUpdateUser
    apply List.map_congr_left
    intro r hr
    by_cases h : r.id = u.id
    · have hru : r = u := huniq r hr h
      subst hru
      simp
    · simp [h]
  unfold UpdateUser
  rw [hfind]
  simp only [ne_eq, not_true_eq_false, if_neg, ite_false, reduceIte]
  rw [hmap]

/-- Witness for `c8_empty_update_frame` at a concrete one-user directory. -/
theorem c8_empty_update_frame_witness :
    (dbGetUserByID
        [{ id := 5, username := "carol", email := "c@x.com",
           password := .hashed "s1" "secret1", role := "user", isActive := true,
           createdAt := 10, updatedAt := 10, lastLogin := none }] 5 =
      .ok { id := 5, username := "carol", email := "c@x.com",
            password := .hashed "s1" "secret1", role := "user", isActive := true,
            createdAt := 10, updatedAt := 10, lastLogin := none }) ∧
    UpdateUser
        [{ id := 5, username := "carol", email := "c@x.com",
           password := .hashed "s1" "secret1", role := "user", isActive := true,
           createdAt := 10, updatedAt := 10, lastLogin := none }]
        5 { username := "", email := "", role := "", isActive := none }
        (.error "e") (.error "e") 99 =
      .ok ([{ id := 5, username := "carol", email := "c@x.com",
              password := .hashed "s1" "secret1", role := "user", isActive := true,
              createdAt := 10, updatedAt := 99, lastLogin := none }],
           { id := 5, username := "carol", email := "c@x.com",
             password := .empty, role := "user", isActive := true,
             createdAt := 10, updatedAt := 99, lastLogin := none }) := by
  constructor
  · decide
  · have h := c8_empty_update_frame
      [{ id := 5, username := "carol", email := "c@x.com",
         password := .hashed "s1" "secret1", role := "user", isActive := true,
         createdAt := 10, updatedAt := 10, lastLogin := none }]
      5 (.error "e") (.error "e") 99
      { id := 5, username := "carol", email := "c@x.com",
        password := .hashed "s1" "secret1", role := "user", isActive := true,
        createdAt := 10, updatedAt := 10, lastLogin := none }
      (by decide) (by decide)
    rw [h]
    decide

/-! ### Access-gate claim (C9) -/

theorem listIsPrefix_append (p rest : List Char) : listIsPrefix p (p ++ rest) = true := by
  induction p with
  | nil => rfl
  | cons c cs ih => simp [listIsPrefix, ih]

theorem goHasPrefix_bearer (s : String) : goHasPrefix ("Bearer " ++ s) "Bearer " = true := by
  show listIsPrefix "Bearer ".data ("Bearer " ++ s).data = true
  have hd : ("Bearer " ++ s).data = "Bearer ".data ++ s.data := by
    cases s
    rfl
  rw [hd, listIsPrefix_append]

theorem goTrimPrefix_bearer (s : String) : goTrimPrefix ("Bearer " ++ s) "Bearer " = s := by
  unfold goTrimPrefix
  rw [goHasPrefix_bearer, if_pos rfl]
  have hd : ("Bearer " ++ s).data = "Bearer ".data ++ s.data := by
    cases s
    rfl
  rw [hd, List.drop_left]

/-- C9: for a request whose bearer token verifies successfully, if the
gate is configured with a required role and the verified payload's role
differs from it, the gate responds 403 `Insufficient permissions` and the
downstream handler is not invoked; if the roles match, the request is
forwarded with the payload's user identifier, username and role bound
into the request context. -/
theorem c9_role_gate (decode : String → Option Token) (secret requiredRole : String)
    (now : Int) (s : String) (payload : JWTPayload)
    (hreq : requiredRole ≠ "")
    (hs : s ≠ "")
    (hv : ValidateJWTString decode secret now s = .ok payload) :
    (payload.Role ≠ requiredRole →
      JWTWithConfig decode secret requiredRole now (some ("Bearer " ++ s)) =
        .forbidden "Insufficient permissions") ∧
    (payload.Role = requiredRole →
      JWTWithConfig decode secret requiredRole now (some ("Bearer " ++ s)) =
        .forwardedWith payload.UserID payload.Username payload.Role) := by
  unfold JWTWithConfig
  simp only [goHasPrefix_bearer, goTrimPrefix_bearer, hv]
  constructor
  · intro hrole
    simp [hs, hreq, hrole]
  · intro hrole
    simp [hs, hreq, hrole]

/-- Witness for `c9_role_gate`: a concrete admin token forwarded through
a gate requiring the admin role. -/
theorem c9_role_gate_witness :
    (("admin" : String) ≠ "" ∧ ("t" : String) ≠ "" ∧
      ValidateJWTString
        (fun str => if str = "t" then some (GenerateJWT "sec" 1 5 "al" "admin" 0 "j").1 else none)
        "sec" 0 "t" =
        .ok { UserID := 5, Username := "al", Role := "admin", Exp := 3600, Iat := 0 }) ∧
    JWTWithConfig
        (fun str => if str = "t" then some (GenerateJWT "sec" 1 5 "al" "admin" 0 "j").1 else none)
        "sec" "admin" 0 (some ("Bearer " ++ "t")) =
      .forwardedWith 5 "al" "admin" :=
  ⟨⟨by decide, by decide, by decide⟩,
   (c9_role_gate
      (fun str => if str = "t" then some (GenerateJWT "sec" 1 5 "al" "admin" 0 "j").1 else none)
      "sec" "admin" 0 "t"
      { UserID := 5, Username := "al", Role := "admin", Exp := 3600, Iat := 0 }
      (by decide) (by decide) (by decide)).2 rfl⟩

/-! ### Registration duplicate-check claim (C10) -/

/-- C10: `Register` reports a duplicate-username (resp. duplicate-email)
error only when the corresponding lookup completed without error and
found an existing record (`err == nil && existing != nil`); when both
lookups themselves fail with an error, the duplicate pre-checks are
silently skipped and registration proceeds to hash and insert exactly as
if the name and email were free. -/
theorem c10_duplicate_check_skip (lookupU lookupE : Except String (Option User))
    (rows : List User) (req : UserCreateRequest) (salt : String) (now nowNanos : Int) :
    (∀ uname, Register lookupU lookupE rows req salt now nowNanos =
        .error (.duplicateUsername uname) → ∃ ex, lookupU = .ok (some ex)) ∧
    (∀ email, Register lookupU lookupE rows req salt now nowNanos =
        .error (.duplicateEmail email) → ∃ ex, lookupE = .ok (some ex)) ∧
    (∀ eU eE, lookupU = .error eU → lookupE = .error eE →
      Register lookupU lookupE rows req salt now nowNanos =
        .ok (rows ++ [{ id := 0, username := req.username, email := req.email,
                        password := .hashed salt req.password,
                        role := if req.role = "" then "user" else req.role,
                        isActive := true, createdAt := now, updatedAt := now,
                        lastLogin := none }],
             { id := nowNanos, username := req.username, email := req.email,
               password := .empty,
               role := if req.role = "" then "user" else req.role,
               isActive := true, createdAt := now, updatedAt := now,
               lastLogin := none })) := by
  refine ⟨?_, ?_, ?_⟩
  · intro uname h
    match hU : lookupU with
    | .ok (some ex) => exact ⟨ex, rfl⟩
    | .ok none =>
      subst hU
      match hE : lookupE with
      | .ok (some ex) => simp [Register] at h
      | .ok none => simp [Register, InsertUser] at h
      | .error e => simp [Register, InsertUser] at h
    | .error e =>
      subst hU
      match hE : lookupE with
      | .ok (some ex) => simp [Register] at h
      | .ok none => simp [Register, InsertUser] at h
      | .error e2 => simp [Register, InsertUser] at h
  · intro email h
    match hU : lookupU with
    | .ok (some ex) =>
      subst hU
      simp [Register] at h
    | .ok none =>
      subst hU
      match hE : lookupE with
      | .ok (some ex) => exact ⟨ex, rfl⟩
      | .ok none => simp [Register, InsertUser] at h
      | .error e => simp [Register, InsertUser] at h
    | .error e =>
      subst hU
      match hE : lookupE with
      | .ok (some ex) => exact ⟨ex, rfl⟩
      | .ok none => simp [Register, InsertUser] at h
      | .error e2 => simp [Register, InsertUser] at h
  · intro eU eE hU hE
    subst hU
    subst hE
    simp [Register, InsertUser]

/-- Witness for `c10_duplicate_check_skip`: with both lookups failing,
registration inserts and succeeds. -/
theorem c10_duplicate_check_skip_witness :
    ((Except.error "db down" : Except String (Option User)) = .error "db down") ∧
    Register (.error "db down") (.error "db down") []
        { username := "alice", email := "alice@x.com", password := "secret1", role := "" }
        "salt1" 1700000000 1700000000000000001 =
      .ok ([{ id := 0, username := "alice", email := "alice@x.com",
              password := .hashed "salt1" "secret1", role := "user",
              isActive := true, createdAt := 1700000000, updatedAt := 1700000000,
              lastLogin := none }],
           { id := 1700000000000000001, username := "alice", email := "alice@x.com",
             password := .empty, role := "user", isActive := true,
             createdAt := 1700000000, updatedAt := 1700000000, lastLogin := none }) := by
  constructor
  · rfl
  · have h := (c10_duplicate_check_skip (.error "db down") (.error "db down") []
      { username := "alice", email := "alice@x.com", password := "secret1", role := "" }
      "salt1" 1700000000 1700000000000000001).2.2 "db down" "db down" rfl rfl
    rw [h]
    decide

end Hepic
